import Mathlib

/-!
Verification of the battery-dispatch optimizer in
`src/backend/app/services/optimization_service.py` (`OptimizationService.run_optimization`).

The service builds a linear program over a horizon of `T` hours:
decision variables `p_charge`, `p_discharge`, `p_grid` (length `T`) and `soc`
(length `T + 1`), all rational here (the solver works over the reals; every
constraint and the objective are linear, so ℚ is a faithful carrier for the
feasibility and optimality arguments below).

The constraints and the objective are transcribed one-for-one from STEP 2 –
STEP 5 of the source; the post-solve status check, the data-preparation /
alignment step and the metric computations of STEP 9 – 11 are embedded as
separate pure functions further down.
-/

namespace BessTool

/-- Round-trip efficiency constant from STEP 3 of the source (`efficiency = 0.90`). -/
def efficiency : ℚ := 9 / 10

/-- The decision variables of the LP: `p_charge`, `p_discharge`, `p_grid` are read
at indices `0 … T-1`, `soc` at `0 … T` (values beyond the horizon are irrelevant). -/
structure Sched where
  p_charge : ℕ → ℚ
  p_discharge : ℕ → ℚ
  soc : ℕ → ℚ
  p_grid : ℕ → ℚ

/-- The feasible set of the LP built in STEP 2 – STEP 4 of the source, for horizon
`T`, PV generation `pv` (MW), power rating `P` (MW) and capacity `C` (MWh):

* `soc[0] == 0` (CONSTRAINT 1);
* `soc[t+1] == soc[t] + efficiency * p_charge[t] - p_discharge[t] / efficiency`
  (CONSTRAINT 2);
* `0 ≤ soc` (variable declared `nonneg=True`) and `soc <= bess_capacity_mwh`
  (CONSTRAINT 3), for all `T + 1` entries;
* `0 ≤ p_charge ≤ bess_power_mw`, `0 ≤ p_discharge ≤ bess_power_mw`
  (`nonneg=True` plus CONSTRAINTS 4, 5);
* `p_grid[t] == pv_generation_mw[t] + p_discharge[t] - p_charge[t]` (CONSTRAINT 6).

There is no mutual-exclusivity (binary) constraint, no minimum-SoC constraint
and no validation of `P`, `C` or `T` anywhere in the source. -/
def Feasible (T : ℕ) (pv : ℕ → ℚ) (P C : ℚ) (s : Sched) : Prop :=
  s.soc 0 = 0 ∧
  (∀ t, t < T → s.soc (t + 1) = s.soc t + efficiency * s.p_charge t - s.p_discharge t / efficiency) ∧
  (∀ t, t ≤ T → 0 ≤ s.soc t ∧ s.soc t ≤ C) ∧
  (∀ t, t < T → 0 ≤ s.p_charge t ∧ s.p_charge t ≤ P) ∧
  (∀ t, t < T → 0 ≤ s.p_discharge t ∧ s.p_discharge t ≤ P) ∧
  (∀ t, t < T → s.p_grid t = pv t + s.p_discharge t - s.p_charge t)

instance (T : ℕ) (pv : ℕ → ℚ) (P C : ℚ) (s : Sched) : Decidable (Feasible T pv P C s) := by
  unfold Feasible; infer_instance

/-- The objective of STEP 5 of the source: `revenue = prices_eur_mwh @ p_grid`
(maximized). -/
def revenue (T : ℕ) (price : ℕ → ℚ) (s : Sched) : ℚ :=
  ∑ t ∈ Finset.range T, price t * s.p_grid t

/-- The solutions the source can return: the solver reports `problem.status ==
cp.OPTIMAL` exactly for maximizers of the LP, and the service raises on every
other status, so every result extracted in STEP 7 is an optimal feasible point. -/
def IsOptimal (T : ℕ) (pv price : ℕ → ℚ) (P C : ℚ) (s : Sched) : Prop :=
  Feasible T pv P C s ∧ ∀ s2, Feasible T pv P C s2 → revenue T price s2 ≤ revenue T price s

/-- The all-zero battery schedule: no charging, no discharging, grid = PV. -/
def zeroSched (pv : ℕ → ℚ) : Sched :=
  { p_charge := fun _ => 0
    p_discharge := fun _ => 0
    soc := fun _ => 0
    p_grid := pv }

section Helpers

variable {T : ℕ} {pv price : ℕ → ℚ} {P C : ℚ} {s : Sched}

theorem zeroSched_feasible (hP : 0 ≤ P) (hC : 0 ≤ C) :
    Feasible T pv P C (zeroSched pv) := by
  refine ⟨rfl, ?_, ?_, ?_, ?_, ?_⟩ <;> intro t ht <;>
    simp [zeroSched, efficiency, hP, hC]

theorem revenue_zeroSched : revenue T price (zeroSched pv) = ∑ t ∈ Finset.range T, price t * pv t := by
  simp [revenue, zeroSched]

/-- Telescoping the SoC dynamics: the final state of charge is the initial one plus
the net (efficiency-weighted) energy moved into the battery. -/
theorem soc_telescope (h : ∀ t, t < T →
    s.soc (t + 1) = s.soc t + efficiency * s.p_charge t - s.p_discharge t / efficiency) :
    s.soc T = s.soc 0 + ∑ t ∈ Finset.range T,
      (efficiency * s.p_charge t - s.p_discharge t / efficiency) := by
  induction T with
  | zero => simp
  | succ n ih =>
    rw [Finset.sum_range_succ, h n (Nat.lt_succ_self n),
      ih (fun t ht => h t (ht.trans (Nat.lt_succ_self n)))]
    ring

/-- Feasibility forces total discharged energy to be at most `81/100` of total
charged energy (the round-trip loss), because the final SoC is non-negative. -/
theorem sum_discharge_le (h : Feasible T pv P C s) :
    ∑ t ∈ Finset.range T, s.p_discharge t ≤
      (81 / 100) * ∑ t ∈ Finset.range T, s.p_charge t := by
  obtain ⟨h0, hdyn, hsoc, hc, hd, hg⟩ := h
  have htel := soc_telescope hdyn
  have hTnn : 0 ≤ s.soc T := (hsoc T le_rfl).1
  rw [htel, h0, zero_add] at hTnn
  have hsplit : ∑ t ∈ Finset.range T, (efficiency * s.p_charge t - s.p_discharge t / efficiency)
      = efficiency * (∑ t ∈ Finset.range T, s.p_charge t)
        - (∑ t ∈ Finset.range T, s.p_discharge t) / efficiency := by
    rw [Finset.sum_sub_distrib, Finset.mul_sum, Finset.sum_div]
  rw [hsplit] at hTnn
  have heff : efficiency = 9 / 10 := rfl
  rw [heff] at hTnn
  set A := ∑ t ∈ Finset.range T, s.p_charge t
  set B := ∑ t ∈ Finset.range T, s.p_discharge t
  have : (10 / 9) * B ≤ (9 / 10) * A := by
    have : B / (9 / 10) = (10 / 9) * B := by ring
    linarith [hTnn, this.symm.le, this.le]
  linarith

theorem sum_charge_nonneg (h : Feasible T pv P C s) :
    0 ≤ ∑ t ∈ Finset.range T, s.p_charge t :=
  Finset.sum_nonneg fun t ht => (h.2.2.2.1 t (Finset.mem_range.mp ht)).1

/-- The objective rewritten through the grid-balance constraint. -/
theorem revenue_eq_gen_plus_battery (h : Feasible T pv P C s) :
    revenue T price s = ∑ t ∈ Finset.range T,
      price t * (pv t + s.p_discharge t - s.p_charge t) := by
  refine Finset.sum_congr rfl fun t ht => ?_
  rw [h.2.2.2.2.2 t (Finset.mem_range.mp ht)]

/-- With a constant price `p > 0`, the revenue of any feasible schedule is at most
the pure-PV revenue: cycled energy is strictly lossy and cannot pay off. -/
theorem revenue_le_pv_of_const_price {T : ℕ} {pv : ℕ → ℚ} {P C p : ℚ} {s : Sched}
    (hp : 0 < p) (h : Feasible T pv P C s) :
    revenue T (fun _ => p) s ≤ p * ∑ t ∈ Finset.range T, pv t +
      p * ((81 / 100) * (∑ t ∈ Finset.range T, s.p_charge t)
        - ∑ t ∈ Finset.range T, s.p_charge t) := by
  rw [revenue_eq_gen_plus_battery h]
  have hexp : ∑ t ∈ Finset.range T, p * (pv t + s.p_discharge t - s.p_charge t)
      = p * ∑ t ∈ Finset.range T, pv t
        + p * (∑ t ∈ Finset.range T, s.p_discharge t)
        - p * ∑ t ∈ Finset.range T, s.p_charge t := by
    rw [← Finset.mul_sum, Finset.sum_sub_distrib, Finset.sum_add_distrib]
    ring
  rw [hexp]
  have hdle := sum_discharge_le h
  nlinarith [hdle, hp.le]

/-- With a constant positive price the all-zero battery schedule is optimal. -/
theorem zeroSched_optimal_const_price {T : ℕ} {pv : ℕ → ℚ} {P C p : ℚ}
    (hp : 0 < p) (hP : 0 ≤ P) (hC : 0 ≤ C) :
    IsOptimal T pv (fun _ => p) P C (zeroSched pv) := by
  refine ⟨zeroSched_feasible hP hC, fun s2 h2 => ?_⟩
  have hb := revenue_le_pv_of_const_price hp h2
  have hcnn := sum_charge_nonneg h2
  rw [revenue_zeroSched]
  have : ∑ t ∈ Finset.range T, p * pv t = p * ∑ t ∈ Finset.range T, pv t :=
    (Finset.mul_sum _ _ _).symm
  rw [this]
  nlinarith [hb, hcnn, hp.le]

/-- With a constant positive price, every optimal schedule is battery-idle:
charge and discharge vanish at every hour of the horizon. -/
theorem optimal_const_price_no_cycling {T : ℕ} {pv : ℕ → ℚ} {P C p : ℚ} {s : Sched}
    (hp : 0 < p) (hP : 0 ≤ P) (hC : 0 ≤ C)
    (hs : IsOptimal T pv (fun _ => p) P C s) :
    ∀ t, t < T → s.p_charge t = 0 ∧ s.p_discharge t = 0 := by
  have hge : revenue T (fun _ => p) (zeroSched pv) ≤ revenue T (fun _ => p) s :=
    hs.2 (zeroSched pv) (zeroSched_feasible hP hC)
  rw [revenue_zeroSched] at hge
  have hzrw : ∑ t ∈ Finset.range T, p * pv t = p * ∑ t ∈ Finset.range T, pv t :=
    (Finset.mul_sum _ _ _).symm
  rw [hzrw] at hge
  have hub := revenue_le_pv_of_const_price hp hs.1
  have hcnn := sum_charge_nonneg hs.1
  have hA : ∑ t ∈ Finset.range T, s.p_charge t = 0 := by nlinarith [hge, hub, hcnn]
  have hceach : ∀ t ∈ Finset.range T, s.p_charge t = 0 :=
    (Finset.sum_eq_zero_iff_of_nonneg
      (fun t ht => (hs.1.2.2.2.1 t (Finset.mem_range.mp ht)).1)).mp hA
  have hdsum := sum_discharge_le hs.1
  rw [hA, mul_zero] at hdsum
  have hdeach : ∀ t ∈ Finset.range T, s.p_discharge t = 0 := by
    have hdnn : ∀ t ∈ Finset.range T, 0 ≤ s.p_discharge t :=
      fun t ht => (hs.1.2.2.2.2.1 t (Finset.mem_range.mp ht)).1
    have : ∑ t ∈ Finset.range T, s.p_discharge t = 0 :=
      le_antisymm hdsum (Finset.sum_nonneg hdnn)
    exact (Finset.sum_eq_zero_iff_of_nonneg hdnn).mp this
  exact fun t ht => ⟨hceach t (Finset.mem_range.mpr ht), hdeach t (Finset.mem_range.mpr ht)⟩

/-- With zero capacity the SoC is pinned to zero at every step. -/
theorem soc_eq_zero_of_zero_capacity {T : ℕ} {pv : ℕ → ℚ} {P : ℚ} {s : Sched}
    (h : Feasible T pv P 0 s) : ∀ t, t ≤ T → s.soc t = 0 :=
  fun t ht => le_antisymm (h.2.2.1 t ht).2 (h.2.2.1 t ht).1

/-- With zero capacity the SoC dynamics force `p_discharge = (81/100) * p_charge`
pointwise: whatever is charged in an hour is burned off in the same hour. -/
theorem discharge_eq_of_zero_capacity {T : ℕ} {pv : ℕ → ℚ} {P : ℚ} {s : Sched}
    (h : Feasible T pv P 0 s) : ∀ t, t < T → s.p_discharge t = (81 / 100) * s.p_charge t := by
  intro t ht
  have h1 := soc_eq_zero_of_zero_capacity h t ht.le
  have h2 := soc_eq_zero_of_zero_capacity h (t + 1) (Nat.succ_le_of_lt ht)
  have heq := h.2.1 t ht
  rw [h1, h2] at heq
  have hdiv : s.p_discharge t / efficiency = (10 / 9) * s.p_discharge t := by
    unfold efficiency; ring
  rw [hdiv] at heq
  unfold efficiency at heq
  linarith

/-- With zero capacity and a pointwise positive price series the all-zero schedule
is optimal. -/
theorem zeroSched_optimal_zero_capacity {T : ℕ} {pv price : ℕ → ℚ} {P : ℚ}
    (hpr : ∀ t, t < T → 0 < price t) (hP : 0 ≤ P) :
    IsOptimal T pv price P 0 (zeroSched pv) := by
  refine ⟨zeroSched_feasible hP le_rfl, fun s2 h2 => ?_⟩
  rw [revenue_zeroSched, revenue_eq_gen_plus_battery h2]
  refine Finset.sum_le_sum fun t ht => ?_
  have htT := Finset.mem_range.mp ht
  have hd := discharge_eq_of_zero_capacity h2 t htT
  have hc := (h2.2.2.2.1 t htT).1
  have hpt := hpr t htT
  rw [hd]
  nlinarith [hpt, hc]

/-- With zero capacity and pointwise positive prices, every optimal schedule is
battery-idle and exports exactly the PV generation. -/
theorem optimal_zero_capacity_idle {T : ℕ} {pv price : ℕ → ℚ} {P : ℚ} {s : Sched}
    (hpr : ∀ t, t < T → 0 < price t) (hP : 0 ≤ P)
    (hs : IsOptimal T pv price P 0 s) :
    ∀ t, t < T → s.p_charge t = 0 ∧ s.p_discharge t = 0 ∧ s.p_grid t = pv t := by
  have hge : revenue T price (zeroSched pv) ≤ revenue T price s :=
    hs.2 (zeroSched pv) (zeroSched_feasible hP le_rfl)
  rw [revenue_zeroSched, revenue_eq_gen_plus_battery hs.1] at hge
  have hrw : ∀ t ∈ Finset.range T,
      price t * (pv t + s.p_discharge t - s.p_charge t)
        = price t * pv t - price t * ((19 / 100) * s.p_charge t) := by
    intro t ht
    have hd := discharge_eq_of_zero_capacity hs.1 t (Finset.mem_range.mp ht)
    rw [hd]; ring
  rw [Finset.sum_congr rfl hrw, Finset.sum_sub_distrib] at hge
  have hsum : ∑ t ∈ Finset.range T, price t * ((19 / 100) * s.p_charge t) ≤ 0 := by
    linarith
  have hterm : ∀ t ∈ Finset.range T, 0 ≤ price t * ((19 / 100) * s.p_charge t) := by
    intro t ht
    have := (hs.1.2.2.2.1 t (Finset.mem_range.mp ht)).1
    have := hpr t (Finset.mem_range.mp ht)
    positivity
  have hzero : ∀ t ∈ Finset.range T, price t * ((19 / 100) * s.p_charge t) = 0 :=
    (Finset.sum_eq_zero_iff_of_nonneg hterm).mp
      (le_antisymm hsum (Finset.sum_nonneg hterm))
  intro t ht
  have hz := hzero t (Finset.mem_range.mpr ht)
  have hpt : price t ≠ 0 := (hpr t ht).ne.symm
  have hc0 : s.p_charge t = 0 := by
    rcases mul_eq_zero.mp hz with h | h
    · exact absurd h hpt
    · linarith [mul_eq_zero.mp h]
  have hd0 : s.p_discharge t = 0 := by
    rw [discharge_eq_of_zero_capacity hs.1 t ht, hc0, mul_zero]
  refine ⟨hc0, hd0, ?_⟩
  rw [hs.1.2.2.2.2.2 t ht, hc0, hd0]
  ring

/-- With zero capacity the objective reduces to PV revenue minus the price-weighted
round-trip loss of whatever is charged. -/
theorem revenue_zero_capacity {T : ℕ} {pv price : ℕ → ℚ} {P : ℚ} {s : Sched}
    (h : Feasible T pv P 0 s) :
    revenue T price s = ∑ t ∈ Finset.range T,
      price t * (pv t - (19 / 100) * s.p_charge t) := by
  rw [revenue_eq_gen_plus_battery h]
  refine Finset.sum_congr rfl fun t ht => ?_
  rw [discharge_eq_of_zero_capacity h t (Finset.mem_range.mp ht)]
  ring

end Helpers

section Instances

/-- Charge at full power and burn the energy off in the same hour: with zero
capacity the SoC never moves, the net grid flow is an import of `0.19` MW per MW
charged, and at negative prices that import is paid. -/
def burnSched : Sched :=
  { p_charge := fun _ => 1
    p_discharge := fun _ => 81 / 100
    soc := fun _ => 0
    p_grid := fun _ => -19 / 100 }

theorem burnSched_feasible_one : Feasible 1 (fun _ => 0) 1 0 burnSched := by
  refine ⟨rfl, ?_, ?_, ?_, ?_, ?_⟩ <;> intro t ht <;> norm_num [burnSched, efficiency]

theorem burnSched_optimal :
    IsOptimal 1 (fun _ => 0) (fun _ => -1) 1 0 burnSched := by
  refine ⟨burnSched_feasible_one, fun s2 h2 => ?_⟩
  rw [revenue_zero_capacity h2]
  have hc := (h2.2.2.2.1 0 Nat.one_pos).2
  simp only [revenue, burnSched, Finset.sum_range_one]
  norm_num
  linarith

/-- The same burn schedule is optimal over the two-hour horizon with prices
`-10, -40` (used for the arbitrage-metric counterexample). -/
def priceTwoNeg : ℕ → ℚ := fun t => if t = 0 then -10 else -40

theorem burnSched_feasible_two : Feasible 2 (fun _ => 0) 1 0 burnSched := by
  refine ⟨rfl, ?_, ?_, ?_, ?_, ?_⟩ <;> intro t ht <;> norm_num [burnSched, efficiency]

theorem burnSched_optimal_two :
    IsOptimal 2 (fun _ => 0) priceTwoNeg 1 0 burnSched := by
  refine ⟨burnSched_feasible_two, fun s2 h2 => ?_⟩
  rw [revenue_zero_capacity h2]
  have hc0 := (h2.2.2.2.1 0 (by norm_num)).2
  have hc1 := (h2.2.2.2.1 1 (by norm_num)).2
  simp only [revenue, burnSched, priceTwoNeg, Finset.sum_range_succ,
    Finset.sum_range_one]
  norm_num
  linarith

/-- The zero-capacity burn schedule on top of 2 MW of PV: imports cut the export
below the generation level whenever the price is negative. -/
def burnSchedPV : Sched :=
  { p_charge := fun _ => 1
    p_discharge := fun _ => 81 / 100
    soc := fun _ => 0
    p_grid := fun _ => 181 / 100 }

theorem burnSchedPV_feasible : Feasible 1 (fun _ => 2) 1 0 burnSchedPV := by
  refine ⟨rfl, ?_, ?_, ?_, ?_, ?_⟩ <;> intro t ht <;> norm_num [burnSchedPV, efficiency]

theorem burnSchedPV_optimal :
    IsOptimal 1 (fun _ => 2) (fun _ => -5) 1 0 burnSchedPV := by
  refine ⟨burnSchedPV_feasible, fun s2 h2 => ?_⟩
  rw [revenue_zero_capacity h2]
  have hc := (h2.2.2.2.1 0 Nat.one_pos).2
  simp only [revenue, burnSchedPV, Finset.sum_range_one]
  norm_num
  linarith

end Instances

/-! ### STEP 1: data preparation (series alignment) -/

/-- STEP 1 of the source: `T = min(len(pv_df), len(price_data))`,
`df = pv_df.iloc[:T]`, `prices_eur_mwh = [p for p in price_data[:T]]` — both
series are truncated to their first `T` elements, nothing else. -/
def alignSeries (pv_power_kw price_data : List ℚ) : List ℚ × List ℚ :=
  let T := min pv_power_kw.length price_data.length
  (pv_power_kw.take T, price_data.take T)

/-- Reading a truncated list below the cut returns the original element. -/
theorem getD_take_eq (l : List ℚ) (n i : ℕ) (h : i < n) :
    (l.take n).getD i 0 = l.getD i 0 := by
  rw [List.getD_eq_getElem?_getD, List.getD_eq_getElem?_getD, List.getElem?_take]
  simp [h]

/-- The feasible set depends on the generation series only through the first `T`
hours. -/
theorem Feasible_congr_pv {T : ℕ} {pv pv2 : ℕ → ℚ} {P C : ℚ} {s : Sched}
    (h : ∀ t, t < T → pv t = pv2 t) :
    Feasible T pv P C s ↔ Feasible T pv2 P C s := by
  unfold Feasible
  constructor
  · exact fun ⟨h0, h1, h2, h3, h4, h5⟩ =>
      ⟨h0, h1, h2, h3, h4, fun t ht => by rw [h5 t ht, h t ht]⟩
  · exact fun ⟨h0, h1, h2, h3, h4, h5⟩ =>
      ⟨h0, h1, h2, h3, h4, fun t ht => by rw [h5 t ht, h t ht]⟩

/-- The objective depends on the price series only through the first `T` hours. -/
theorem revenue_congr_price {T : ℕ} {price price2 : ℕ → ℚ} {s : Sched}
    (h : ∀ t, t < T → price t = price2 t) :
    revenue T price s = revenue T price2 s :=
  Finset.sum_congr rfl fun t ht => by rw [h t (Finset.mem_range.mp ht)]

/-! ### STEP 1 – STEP 6: model construction (no validation) -/

/-- The model handed to the solver: horizon, unit-converted generation
(`pv_power_kw / 1000`), truncated prices, and the battery ratings. -/
structure Model where
  T : ℕ
  pv_generation_mw : ℕ → ℚ
  prices_eur_mwh : ℕ → ℚ
  bess_power_mw : ℚ
  bess_capacity_mwh : ℚ

/-- STEP 1 – STEP 6 of `run_optimization` up to `problem = cp.Problem(...)`:
alignment, kW→MW conversion and constraint construction. This region of the
source contains no `raise` statement and no validation of any kind, so the
embedding is total and always returns the constructed problem; it is typed in
`Except` to make the absence of a pre-solve validation error statable. -/
def buildModel (pv_power_kw price_data : List ℚ) (bess_power_mw bess_capacity_mwh : ℚ) :
    Except String Model :=
  let T := min pv_power_kw.length price_data.length
  let aligned := alignSeries pv_power_kw price_data
  Except.ok
    { T := T
      pv_generation_mw := fun t => aligned.1.getD t 0 / 1000
      prices_eur_mwh := fun t => aligned.2.getD t 0
      bess_power_mw := bess_power_mw
      bess_capacity_mwh := bess_capacity_mwh }

/-! ### STEP 6: post-solve status handling -/

/-- `cp.OPTIMAL`. -/
def OPTIMAL : String := "optimal"

/-- The status check after `problem.solve()`:
`if problem.status != cp.OPTIMAL: raise ValueError(...)`. The raised message is
the f-string of the source with the raw status interpolated; on `cp.OPTIMAL` the
function continues to extraction. -/
def statusGate (status : String) : Except String Unit :=
  if status ≠ OPTIMAL then
    Except.error ("Optimization did not converge. Status: " ++ status ++
      ". This may indicate infeasible constraints or numerical issues.")
  else
    Except.ok ()

/-! ### STEP 9 – STEP 11: metrics -/

/-- STEP 9: `revenue_from_export = (net_grid_kw / 1000) * price if net_grid_kw > 0 else 0`. -/
def revenue_from_export (net_grid_kw price_eur_mwh : ℚ) : ℚ :=
  if net_grid_kw > 0 then (net_grid_kw / 1000) * price_eur_mwh else 0

/-- STEP 9: `cost_from_import = abs(net_grid_kw / 1000) * price if net_grid_kw < 0 else 0`. -/
def cost_from_import (net_grid_kw price_eur_mwh : ℚ) : ℚ :=
  if net_grid_kw < 0 then |net_grid_kw / 1000| * price_eur_mwh else 0

/-- STEP 9: `net_revenue = revenue_from_export - cost_from_import` (per hour). -/
def net_revenue (net_grid_kw price_eur_mwh : ℚ) : ℚ :=
  revenue_from_export net_grid_kw price_eur_mwh - cost_from_import net_grid_kw price_eur_mwh

/-- STEP 10: `total_revenue = df['net_revenue'].sum()`. -/
def total_revenue (T : ℕ) (net_grid_kw price : ℕ → ℚ) : ℚ :=
  ∑ t ∈ Finset.range T, net_revenue (net_grid_kw t) (price t)

/-- STEP 10: the hours flagged as charging, `df['bess_charge_kw'] > 0.1`. -/
def charging_hours (T : ℕ) (bess_charge_kw : ℕ → ℚ) : Finset ℕ :=
  (Finset.range T).filter fun t => bess_charge_kw t > 1 / 10

/-- STEP 10: the hours flagged as discharging, `df['bess_discharge_kw'] > 0.1`. -/
def discharging_hours (T : ℕ) (bess_discharge_kw : ℕ → ℚ) : Finset ℕ :=
  (Finset.range T).filter fun t => bess_discharge_kw t > 1 / 10

/-- STEP 10: mean price over charging hours, `0` when there are none. -/
def avg_charging_price (T : ℕ) (bess_charge_kw price : ℕ → ℚ) : ℚ :=
  if 0 < (charging_hours T bess_charge_kw).card then
    (∑ t ∈ charging_hours T bess_charge_kw, price t) / (charging_hours T bess_charge_kw).card
  else 0

/-- STEP 10: mean price over discharging hours, `0` when there are none. -/
def avg_discharging_price (T : ℕ) (bess_discharge_kw price : ℕ → ℚ) : ℚ :=
  if 0 < (discharging_hours T bess_discharge_kw).card then
    (∑ t ∈ discharging_hours T bess_discharge_kw, price t) /
      (discharging_hours T bess_discharge_kw).card
  else 0

/-- STEP 10: `price_spread = avg_discharging_price - avg_charging_price`. -/
def price_spread (T : ℕ) (bess_charge_kw bess_discharge_kw price : ℕ → ℚ) : ℚ :=
  avg_discharging_price T bess_discharge_kw price - avg_charging_price T bess_charge_kw price

/-- STEP 10: `total_discharge_mwh = df['bess_discharge_kw'].sum() / 1000`. -/
def total_discharge_mwh (T : ℕ) (bess_discharge_kw : ℕ → ℚ) : ℚ :=
  (∑ t ∈ Finset.range T, bess_discharge_kw t) / 1000

/-- STEP 11: the reported arbitrage figure,
`price_spread * total_discharge_mwh if price_spread > 0 else 0`. -/
def arbitrage_revenue_estimate (T : ℕ) (bess_charge_kw bess_discharge_kw price : ℕ → ℚ) : ℚ :=
  if price_spread T bess_charge_kw bess_discharge_kw price > 0 then
    price_spread T bess_charge_kw bess_discharge_kw price *
      total_discharge_mwh T bess_discharge_kw
  else 0

/-- Modelled from the spec (§4.5): the exact arbitrage revenue the spec demands,
`Σ(discharge_mw[t]/1000·price[t]) − Σ(charge_mw[t]/1000·price[t])` over flagged
hours. This computation is absent from the source; it is stated here only as the
reference point for the refinement claim about the reported figure. -/
def exact_arbitrage_revenue (T : ℕ) (bess_charge_kw bess_discharge_kw price : ℕ → ℚ) : ℚ :=
  (∑ t ∈ discharging_hours T bess_discharge_kw, (bess_discharge_kw t / 1000) * price t) -
    ∑ t ∈ charging_hours T bess_charge_kw, (bess_charge_kw t / 1000) * price t

/-- Rounding to two decimals, as applied to the reported
`total_revenue_eur = round(total_revenue, 2)`. -/
def round2 (x : ℚ) : ℚ := (round (100 * x) : ℤ) / 100

/-- The sum of the energy cycled through the battery,
`Σ (p_charge[t] + p_discharge[t])` in MWh over the horizon — the quantity the
spec's degradation penalty multiplies. -/
def cycled_energy (T : ℕ) (s : Sched) : ℚ :=
  ∑ t ∈ Finset.range T, (s.p_charge t + s.p_discharge t)

section MetricHelpers

/-- The per-hour export/import split is exact in every sign case. -/
theorem net_revenue_eq (net_grid_kw price_eur_mwh : ℚ) :
    net_revenue net_grid_kw price_eur_mwh = (net_grid_kw / 1000) * price_eur_mwh := by
  unfold net_revenue revenue_from_export cost_from_import
  rcases lt_trichotomy net_grid_kw 0 with h | h | h
  · rw [if_neg (by linarith), if_pos h,
      abs_of_neg (div_neg_of_neg_of_pos h (by norm_num))]
    ring
  · simp [h]
  · rw [if_pos h, if_neg (by linarith)]
    ring

/-- Summing the per-hour `net_revenue` of a schedule (grid flow converted to kW)
recovers the LP objective exactly. -/
theorem total_revenue_eq_revenue (T : ℕ) (price : ℕ → ℚ) (s : Sched) :
    total_revenue T (fun t => 1000 * s.p_grid t) price = revenue T price s := by
  unfold total_revenue revenue
  refine Finset.sum_congr rfl fun t ht => ?_
  rw [net_revenue_eq]
  ring

/-- Rounding to two decimals moves a rational by at most `1/200`. -/
theorem round2_close (x : ℚ) : |round2 x - x| ≤ 1 / 200 := by
  unfold round2
  set r : ℚ := ((round (100 * x) : ℤ) : ℚ) with hr
  have h : |100 * x - r| ≤ 1 / 2 := abs_sub_round (100 * x)
  have h1 : r / 100 - x = (r - 100 * x) / 100 := by ring
  have h100 : |(100 : ℚ)| = 100 := by norm_num
  rw [h1, abs_div, abs_sub_comm, h100]
  linarith

end MetricHelpers

/-! ### Claims -/

/-- C1: the claim says every accepted schedule satisfies
`charge_mw[t] * discharge_mw[t] = 0` (tolerance about `1/1000`) for every input
including negative prices. The LP of the source has no mutual-exclusivity
constraint, and on the one-hour instance with generation `0`, price `-1` EUR/MWh,
power `1` MW and capacity `0` MWh the optimal solution charges `1` MW and
discharges `81/100` MW in the same hour: the product is `81/100`, far above the
tolerance. -/
theorem C1_simultaneous_flow_at_negative_price :
    IsOptimal 1 (fun _ => 0) (fun _ => -1) 1 0 burnSched ∧
    burnSched.p_charge 0 * burnSched.p_discharge 0 = 81 / 100 ∧
    (1 / 1000 : ℚ) < burnSched.p_charge 0 * burnSched.p_discharge 0 :=
  ⟨burnSched_optimal, by norm_num [burnSched], by norm_num [burnSched]⟩

/-- C2: the claim says the reported objective equals
`Σ price·grid_power − throughput_cost · Σ(charge + discharge)` for positive
throughput cost. The source has no throughput-cost term (and no such parameter):
the reported objective is the pure market revenue. On the burn instance, with the
caller's default `throughput_cost_eur_mwh = 10`, the claimed formula differs from
the reported value by `10 · 181/100`. -/
theorem C2_objective_lacks_throughput_penalty :
    IsOptimal 1 (fun _ => 0) (fun _ => -1) 1 0 burnSched ∧
    revenue 1 (fun _ => -1) burnSched = 19 / 100 ∧
    cycled_energy 1 burnSched = 181 / 100 ∧
    revenue 1 (fun _ => -1) burnSched ≠
      revenue 1 (fun _ => -1) burnSched - 10 * cycled_energy 1 burnSched := by
  refine ⟨burnSched_optimal, ?_, ?_, ?_⟩
  · norm_num [revenue, burnSched, Finset.sum_range_one]
  · norm_num [cycled_energy, burnSched, Finset.sum_range_one]
  · norm_num [revenue, cycled_energy, burnSched, Finset.sum_range_one]

/-- C3 (counterexample): the claim says the status `optimal_inaccurate` is
accepted. The source raises on every status other than `cp.OPTIMAL`, including
`optimal_inaccurate`. -/
theorem C3_optimal_inaccurate_rejected :
    statusGate "optimal_inaccurate" =
      Except.error ("Optimization did not converge. Status: " ++ "optimal_inaccurate" ++
        ". This may indicate infeasible constraints or numerical issues.") := by
  unfold statusGate
  rw [if_pos (show "optimal_inaccurate" ≠ OPTIMAL by decide)]

/-- C3 (amended): `run_optimization` returns a result exactly when the solver
status is the string `optimal`; every other status — `optimal_inaccurate`
included — raises a `ValueError` whose message carries the raw status string. No
schedule is extracted on the error path. -/
theorem C3_status_gate (status : String) :
    (statusGate status = Except.ok () ↔ status = OPTIMAL) ∧
    (status ≠ OPTIMAL → statusGate status =
      Except.error ("Optimization did not converge. Status: " ++ status ++
        ". This may indicate infeasible constraints or numerical issues.")) := by
  unfold statusGate
  constructor
  · constructor
    · intro h
      by_contra hne
      rw [if_pos hne] at h
      cases h
    · intro h
      rw [if_neg (not_not_intro h)]
  · intro h
    rw [if_pos h]

/-- C3 (witness): the gate at the concrete status `infeasible`. -/
theorem C3_status_gate_witness :
    statusGate "infeasible" =
      Except.error ("Optimization did not converge. Status: infeasible" ++
        ". This may indicate infeasible constraints or numerical issues.") :=
  (C3_status_gate "infeasible").2 (by decide)

/-- C4: the claim says every accepted solution has `soc[0] = min_soc_mwh` and
`soc` within `[min_soc_mwh, capacity]` for every `min_soc_fraction` in `[0, 1)`.
The source has no minimum-SoC parameter at all: CONSTRAINT 1 pins `soc[0] = 0`
for every feasible schedule, so with the fraction `1/10` of the repo's own
`test_min_soc_constraint` (capacity `4` MWh, reserve `2/5` MWh) no accepted
solution can satisfy the claim, and the exhibited optimal solution stays at
SoC `0`, below the reserve, at every step. -/
theorem C4_soc_pinned_to_zero (s : Sched) (h : Feasible 1 (fun _ => 0) 1 4 s) :
    s.soc 0 = 0 ∧
    IsOptimal 1 (fun _ => 0) (fun _ => 0) 1 4 (zeroSched fun _ => 0) ∧
    (zeroSched fun _ => 0).soc 0 = 0 ∧ (0 : ℚ) ≠ (1 / 10) * 4 := by
  refine ⟨h.1, ⟨zeroSched_feasible (by norm_num) (by norm_num), fun s2 h2 => ?_⟩,
    rfl, by norm_num⟩
  simp [revenue]

/-- C4 (witness): the all-zero schedule is feasible for that instance and its
initial SoC is `0`. -/
theorem C4_soc_pinned_to_zero_witness :
    Feasible 1 (fun _ => 0) 1 4 (zeroSched fun _ => 0) ∧
    (zeroSched fun _ => 0).soc 0 = 0 :=
  ⟨zeroSched_feasible (by norm_num) (by norm_num),
    (C4_soc_pinned_to_zero (zeroSched fun _ => 0)
      (zeroSched_feasible (by norm_num) (by norm_num))).1⟩

/-- C5 (counterexample): the claim says a negative `capacity_mwh` (or
`power_limit_mw`) raises a `ValidationError` before model construction and that
an empty aligned horizon does too. The source validates nothing: model
construction succeeds for a negative capacity and for `T = 0` alike (there is no
`raise` anywhere before the solve call). -/
theorem C5_no_prebuild_validation :
    (buildModel [0] [0] 1 (-1)).isOk = true ∧ (buildModel [] [] 1 1).isOk = true :=
  ⟨rfl, rfl⟩

/-- C5 (amended): no validation happens before the model is built; a negative
capacity (or, on a non-empty horizon, a negative power limit) instead makes the
constraint set infeasible, so the failure surfaces only after the solve attempt,
through the status check — not as a pre-build `ValidationError`. -/
theorem C5_negative_spec_infeasible (T : ℕ) (pv : ℕ → ℚ) (P C : ℚ)
    (h : C < 0 ∨ (P < 0 ∧ 0 < T)) (s : Sched) : ¬ Feasible T pv P C s := by
  intro hs
  rcases h with hC | ⟨hP, hT⟩
  · have h0 := hs.2.2.1 0 (Nat.zero_le T)
    linarith [h0.1, h0.2]
  · have hc := hs.2.2.2.1 0 hT
    linarith [hc.1, hc.2]

/-- C5 (witness): with capacity `-1` even the all-zero schedule is infeasible. -/
theorem C5_negative_spec_infeasible_witness :
    ((-1 : ℚ) < 0) ∧ ¬ Feasible 1 (fun _ => 0) 1 (-1) (zeroSched fun _ => 0) :=
  ⟨by norm_num,
    C5_negative_spec_infeasible 1 (fun _ => 0) 1 (-1) (Or.inl (by norm_num))
      (zeroSched fun _ => 0)⟩

/-- C6 (counterexample): the claim says that with `capacity_mwh = 0` the optimal
solution has zero charge and discharge and `grid = generation` for any price
series. On one hour with generation `2` MW, price `-5` EUR/MWh, power `1` MW, the
optimal zero-capacity schedule charges `1` MW (burning it off in the same hour)
and exports only `181/100` MW instead of `2` MW. -/
theorem C6_zero_capacity_negative_price_not_idle :
    IsOptimal 1 (fun _ => 2) (fun _ => -5) 1 0 burnSchedPV ∧
    burnSchedPV.p_charge 0 ≠ 0 ∧
    burnSchedPV.p_grid 0 ≠ 2 :=
  ⟨burnSchedPV_optimal, by norm_num [burnSchedPV], by norm_num [burnSchedPV]⟩

/-- C6 (amended): with `capacity_mwh = 0` the model stays feasible (the all-zero
schedule satisfies every constraint, so the builder need not raise), and when
every price over the horizon is positive, every optimal solution is battery-idle
with `grid_power = generation` at every hour. -/
theorem C6_zero_capacity_positive_prices_idle (T : ℕ) (pv price : ℕ → ℚ) (P : ℚ)
    (s : Sched) (hpr : ∀ t, t < T → 0 < price t) (hP : 0 ≤ P)
    (hs : IsOptimal T pv price P 0 s) :
    Feasible T pv P 0 (zeroSched pv) ∧
    ∀ t, t < T → s.p_charge t = 0 ∧ s.p_discharge t = 0 ∧ s.p_grid t = pv t :=
  ⟨zeroSched_feasible hP le_rfl, optimal_zero_capacity_idle hpr hP hs⟩

/-- C6 (witness): the one-hour instance with generation `1` MW and price `50`. -/
theorem C6_zero_capacity_positive_prices_idle_witness :
    Feasible 1 (fun _ => 1) 1 0 (zeroSched fun _ => 1) ∧
    (zeroSched fun _ => (1 : ℚ)).p_charge 0 = 0 :=
  ⟨(C6_zero_capacity_positive_prices_idle 1 (fun _ => 1) (fun _ => 50) 1
      (zeroSched fun _ => 1) (fun _ _ => by norm_num) (by norm_num)
      (zeroSched_optimal_zero_capacity (fun _ _ => by norm_num) (by norm_num))).1,
    ((C6_zero_capacity_positive_prices_idle 1 (fun _ => 1) (fun _ => 50) 1
      (zeroSched fun _ => 1) (fun _ _ => by norm_num) (by norm_num)
      (zeroSched_optimal_zero_capacity (fun _ _ => by norm_num) (by norm_num))).2
      0 Nat.one_pos).1⟩

/-- C7: with a constant positive price, every optimal schedule is battery-idle at
every hour and the summed per-hour net revenue equals `Σ generation·price`
exactly. Proved for every horizon length, hence in particular for the claim's
24-hour instances (the reported `total_revenue_eur` is this sum rounded to two
decimals). -/
theorem C7_constant_price_no_cycling (T : ℕ) (pv : ℕ → ℚ) (p P C : ℚ) (s : Sched)
    (hp : 0 < p) (hP : 0 ≤ P) (hC : 0 ≤ C)
    (hs : IsOptimal T pv (fun _ => p) P C s) :
    (∀ t, t < T → s.p_charge t = 0 ∧ s.p_discharge t = 0) ∧
    total_revenue T (fun t => 1000 * s.p_grid t) (fun _ => p) =
      ∑ t ∈ Finset.range T, pv t * p := by
  have hidle := optimal_const_price_no_cycling hp hP hC hs
  refine ⟨hidle, ?_⟩
  rw [total_revenue_eq_revenue, revenue_eq_gen_plus_battery hs.1]
  refine Finset.sum_congr rfl fun t ht => ?_
  obtain ⟨hc, hd⟩ := hidle t (Finset.mem_range.mp ht)
  rw [hc, hd]
  ring

/-- C7 (witness): a 24-hour flat-price instance (generation `1` MW, price `50`)
with the all-zero schedule, which is optimal there. -/
theorem C7_constant_price_no_cycling_witness :
    (0 : ℚ) < 50 ∧
    total_revenue 24 (fun t => 1000 * (zeroSched fun _ => (1 : ℚ)).p_grid t)
      (fun _ => 50) = 1200 :=
  ⟨by norm_num,
    ((C7_constant_price_no_cycling 24 (fun _ => 1) 50 1 0 (zeroSched fun _ => 1)
      (by norm_num) (by norm_num) (by norm_num)
      (zeroSched_optimal_const_price (by norm_num) (by norm_num) (by norm_num))).2).trans
      (by norm_num [Finset.sum_const, Finset.card_range])⟩

/-- C8 (counterexample): the claim says the reported arbitrage figure equals the
exact per-hour computation. On the reachable two-hour zero-capacity instance with
prices `-10, -40` the optimal schedule charges `1` MW and discharges `81/100` MW
in both hours; the average charging and discharging prices coincide (`-25`), so
the reported spread-based figure is `0`, while the exact per-hour computation
gives `19/2`. -/
theorem C8_estimate_not_exact :
    IsOptimal 2 (fun _ => 0) priceTwoNeg 1 0 burnSched ∧
    arbitrage_revenue_estimate 2 (fun t => 1000 * burnSched.p_charge t)
      (fun t => 1000 * burnSched.p_discharge t) priceTwoNeg = 0 ∧
    exact_arbitrage_revenue 2 (fun t => 1000 * burnSched.p_charge t)
      (fun t => 1000 * burnSched.p_discharge t) priceTwoNeg = 19 / 2 ∧
    (0 : ℚ) ≠ 19 / 2 := by
  have hch : charging_hours 2 (fun t => 1000 * burnSched.p_charge t) = Finset.range 2 :=
    Finset.filter_true_of_mem fun t _ => by norm_num [burnSched]
  have hdis : discharging_hours 2 (fun t => 1000 * burnSched.p_discharge t) = Finset.range 2 :=
    Finset.filter_true_of_mem fun t _ => by norm_num [burnSched]
  have hspread : price_spread 2 (fun t => 1000 * burnSched.p_charge t)
      (fun t => 1000 * burnSched.p_discharge t) priceTwoNeg = 0 := by
    unfold price_spread avg_charging_price avg_discharging_price
    rw [hch, hdis]
    norm_num [Finset.sum_range_succ, Finset.card_range, priceTwoNeg]
  refine ⟨burnSched_optimal_two, ?_, ?_, by norm_num⟩
  · unfold arbitrage_revenue_estimate
    rw [hspread]
    norm_num
  · unfold exact_arbitrage_revenue
    rw [hch, hdis]
    norm_num [Finset.sum_range_succ, priceTwoNeg, burnSched]

/-- C8 (amended): the reported arbitrage revenue is the aggregate approximation —
the average price spread times total discharged energy, clamped below at zero —
not the exact per-hour computation (which the source does not perform, and from
which the reported figure can differ). -/
theorem C8_reported_is_spread_estimate (T : ℕ) (bess_charge_kw bess_discharge_kw price : ℕ → ℚ)
    (hd : ∀ t, t < T → 0 ≤ bess_discharge_kw t) :
    arbitrage_revenue_estimate T bess_charge_kw bess_discharge_kw price =
      max 0 (price_spread T bess_charge_kw bess_discharge_kw price *
        total_discharge_mwh T bess_discharge_kw) := by
  have htot : 0 ≤ total_discharge_mwh T bess_discharge_kw := by
    unfold total_discharge_mwh
    exact div_nonneg
      (Finset.sum_nonneg fun t ht => hd t (Finset.mem_range.mp ht)) (by norm_num)
  unfold arbitrage_revenue_estimate
  by_cases h : price_spread T bess_charge_kw bess_discharge_kw price > 0
  · rw [if_pos h, max_eq_right (mul_nonneg h.le htot)]
  · rw [if_neg h, eq_comm, max_eq_left]
    push_neg at h
    exact mul_nonpos_iff.mpr (Or.inr ⟨h, htot⟩)

/-- C8 (witness): the spread formula evaluated on an idle instance. -/
theorem C8_reported_is_spread_estimate_witness :
    arbitrage_revenue_estimate 1 (fun _ => 0) (fun _ => 0) (fun _ => 0) =
      max 0 (price_spread 1 (fun _ => 0) (fun _ => 0) (fun _ => 0) *
        total_discharge_mwh 1 (fun _ => 0)) :=
  C8_reported_is_spread_estimate 1 (fun _ => 0) (fun _ => 0) (fun _ => 0)
    fun _ _ => le_rfl

/-- C9: the alignment step truncates both series to their first
`T = min(len1, len2)` elements — same length, same order, same values below the
cut — and the model built downstream (feasible set and objective) is unchanged by
replacing the full series with the truncated ones, i.e. it reads exactly those
`T` hours. -/
theorem C9_alignment_truncates (pv_power_kw price_data : List ℚ)
    (hT : 0 < min pv_power_kw.length price_data.length) :
    (alignSeries pv_power_kw price_data).1.length =
        min pv_power_kw.length price_data.length ∧
    (alignSeries pv_power_kw price_data).2.length =
        min pv_power_kw.length price_data.length ∧
    (∀ i, i < min pv_power_kw.length price_data.length →
      (alignSeries pv_power_kw price_data).1.getD i 0 = pv_power_kw.getD i 0 ∧
      (alignSeries pv_power_kw price_data).2.getD i 0 = price_data.getD i 0) ∧
    ∀ (P C : ℚ) (s : Sched),
      (Feasible (min pv_power_kw.length price_data.length)
          (fun t => (alignSeries pv_power_kw price_data).1.getD t 0 / 1000) P C s ↔
        Feasible (min pv_power_kw.length price_data.length)
          (fun t => pv_power_kw.getD t 0 / 1000) P C s) ∧
      revenue (min pv_power_kw.length price_data.length)
          (fun t => (alignSeries pv_power_kw price_data).2.getD t 0) s =
        revenue (min pv_power_kw.length price_data.length)
          (fun t => price_data.getD t 0) s := by
  simp only [alignSeries]
  refine ⟨?_, ?_, ?_, ?_⟩
  · rw [List.length_take]
    exact Nat.min_eq_left (Nat.min_le_left _ _)
  · rw [List.length_take]
    exact Nat.min_eq_left (Nat.min_le_right _ _)
  · exact fun i hi => ⟨getD_take_eq _ _ _ hi, getD_take_eq _ _ _ hi⟩
  · intro P C s
    constructor
    · exact Feasible_congr_pv fun t ht => by rw [getD_take_eq _ _ _ ht]
    · exact revenue_congr_price fun t ht => by rw [getD_take_eq _ _ _ ht]

/-- C9 (witness): aligning `[1]` with `[2, 3]` keeps the one common hour. -/
theorem C9_alignment_truncates_witness :
    (0 < min [(1 : ℚ)].length [(2 : ℚ), 3].length) ∧
    (alignSeries [(1 : ℚ)] [(2 : ℚ), 3]).1.length =
      min [(1 : ℚ)].length [(2 : ℚ), 3].length :=
  ⟨by decide, (C9_alignment_truncates [(1 : ℚ)] [(2 : ℚ), 3] (by decide)).1⟩

/-- C10: the per-hour revenue decomposition of STEP 9 is exact for every sign
combination — `net_revenue = (net_grid_kw/1000)·price`, and importing at a
negative price produces a negative import cost, i.e. a gain — so the summed
`total_revenue` of STEP 10 equals the solver objective `Σ price·grid_power`
exactly, and the reported 2-decimal rounding moves it by at most `1/200`. -/
theorem C10_revenue_decomposition (T : ℕ) (pv price : ℕ → ℚ) (P C : ℚ) (s : Sched)
    (h : Feasible T pv P C s) :
    (∀ g q : ℚ, net_revenue g q = (g / 1000) * q) ∧
    (∀ g q : ℚ, g < 0 → q < 0 → cost_from_import g q < 0) ∧
    total_revenue T (fun t => 1000 * s.p_grid t) price = revenue T price s ∧
    |round2 (total_revenue T (fun t => 1000 * s.p_grid t) price) -
      revenue T price s| ≤ 1 / 200 := by
  refine ⟨net_revenue_eq, ?_, total_revenue_eq_revenue T price s, ?_⟩
  · intro g q hg hq
    unfold cost_from_import
    rw [if_pos hg]
    exact mul_neg_of_pos_of_neg (abs_pos.mpr (div_ne_zero hg.ne (by norm_num))) hq
  · rw [total_revenue_eq_revenue]
    exact round2_close _

/-- C10 (witness): the decomposition on a concrete feasible schedule. -/
theorem C10_revenue_decomposition_witness :
    Feasible 1 (fun _ => 1) 1 0 (zeroSched fun _ => 1) ∧
    total_revenue 1 (fun t => 1000 * (zeroSched fun _ => (1 : ℚ)).p_grid t)
      (fun _ => 50) = revenue 1 (fun _ => 50) (zeroSched fun _ => 1) :=
  ⟨zeroSched_feasible (by norm_num) (by norm_num),
    (C10_revenue_decomposition 1 (fun _ => 1) (fun _ => 50) 1 0
      (zeroSched fun _ => 1)
      (zeroSched_feasible (by norm_num) (by norm_num))).2.2.1⟩

end BessTool
